import Mathlib

/-!
Verification of the Halloweenframe repository (pirdetect.py, scare.py,
scare2.py, scarerandom.py) against its natural-language specification.

The Python modules are shallowly embedded as pure Lean functions.  External
effects are made explicit:
* sensor reads become a finite list of boolean samples consumed in order;
* subscribed callbacks become functions `Bool → Except String Unit`, where
  `Except.error` models a handler that raises (the `try/except` in
  `trigger_callbacks` catches and logs the error, so the dispatcher returns
  the list of per-handler outcomes instead of propagating);
* child-process launches (`subprocess.Popen`) become `Except String ProcHandle`
  inputs (an `Except.error` models the constructor raising, e.g. the binary
  not found), and the observable actions of a scare cycle are collected in an
  event trace;
* filesystem existence checks become an oracle `String → Bool`;
* `random.choice` becomes a stream of draw indices `Nat → Nat`;
* wall-clock times become integers.
-/

namespace Pirdetect

/-- A subscribed handler, as registered by `Detector.subscribe`: it receives
the current boolean state; `Except.error` models the handler raising. -/
def Callback := Bool → Except String Unit

/-- The mutable fields of `Detector` used by the polling loop
(`self.callbacks`, `self.curr_state`, `self.prev_state`). -/
structure DetectorState where
  callbacks : List Callback
  curr_state : Bool
  prev_state : Bool

/-- `Detector.__init__`: `curr_state = prev_state = False`, with the given
subscriber list (subscription is append-only and happens before `start`). -/
def Detector.init (cbs : List Callback) : DetectorState :=
  { callbacks := cbs, curr_state := false, prev_state := false }

/-- `Detector.read` on a successful sample: shifts current into previous and
stores the new sample as current. -/
def Detector.read (s : DetectorState) (sample : Bool) : DetectorState :=
  { s with prev_state := s.curr_state, curr_state := sample }

/-- `Detector.trigger_callbacks`: invokes every registered callback with the
given state; a raising callback is caught and logged (`except Exception`)
and the `for` loop moves on to the next callback, so the function returns the
list of all per-callback outcomes in registration order. -/
def Detector.trigger_callbacks (cbs : List Callback) (state : Bool) :
    List (Except String Unit) :=
  match cbs with
  | [] => []
  | cb :: rest => cb state :: Detector.trigger_callbacks rest state

/-- One edge event as observed from outside: the state passed to the
callbacks, paired with each callback's outcome. -/
def EdgeEvent := Bool × List (Except String Unit)

/-- The body of the `while True` loop in `Detector.start`, run over the finite
list of samples the loop consumes (one per iteration): read, compare current
against previous, and on a change dispatch the callbacks.  Returns the list of
emitted edge events in order. -/
def Detector.loop (s : DetectorState) : List Bool → List EdgeEvent
  | [] => []
  | b :: rest =>
    let s1 := Detector.read s b
    if s1.curr_state ≠ s1.prev_state then
      (s1.curr_state, Detector.trigger_callbacks s1.callbacks s1.curr_state)
        :: Detector.loop s1 rest
    else
      Detector.loop s1 rest

/-- `Detector.start`: one throwaway priming `read` before the loop (it only
updates the state, it never dispatches callbacks), then the polling loop over
the remaining samples.  `samples` is the full sampled sequence: its head is
the priming read, the tail is one sample per loop iteration. -/
def Detector.start (cbs : List Callback) (samples : List Bool) :
    List EdgeEvent :=
  match samples with
  | [] => []
  | s0 :: rest => Detector.loop (Detector.read (Detector.init cbs) s0) rest

/-- The number of adjacent differing pairs in a sequence of samples. -/
def adjacentDiffCount : List Bool → Nat
  | a :: b :: rest => (if a ≠ b then 1 else 0) + adjacentDiffCount (b :: rest)
  | _ => 0

/-- The loop never touches the subscriber list, and the callbacks of the state
it threads are the ones it dispatches: every event of `Detector.loop` invokes
every callback of the starting state once, in order, with the event state. -/
theorem Detector.loop_event_outcomes (rest : List Bool) (s : DetectorState)
    (ev : EdgeEvent) (hev : ev ∈ Detector.loop s rest) :
    ev.2 = Detector.trigger_callbacks s.callbacks ev.1 := by
  induction rest generalizing s with
  | nil => simp [Detector.loop] at hev
  | cons b rest ih =>
    simp only [Detector.loop] at hev
    by_cases h : (Detector.read s b).curr_state ≠ (Detector.read s b).prev_state
    · rw [if_pos h] at hev
      rcases List.mem_cons.mp hev with h1 | h1
      · subst h1
        rfl
      · exact ih (Detector.read s b) h1
    · rw [if_neg h] at hev
      exact ih (Detector.read s b) hev

/-- `trigger_callbacks` is the map of the handlers over the state. -/
theorem Detector.trigger_callbacks_eq_map (cbs : List Callback) (state : Bool) :
    Detector.trigger_callbacks cbs state = cbs.map (fun cb => cb state) := by
  induction cbs with
  | nil => rfl
  | cons cb rest ih => simp [Detector.trigger_callbacks, ih]

/-- Edge counting: starting the loop with current state `c`, the number of
emitted events is the number of adjacent differing pairs of `c :: rest`,
whatever the previous state and the callbacks are. -/
theorem Detector.loop_length (rest : List Bool) (cbs : List Callback)
    (c p : Bool) :
    (Detector.loop ⟨cbs, c, p⟩ rest).length = adjacentDiffCount (c :: rest) := by
  induction rest generalizing c p with
  | nil => rfl
  | cons b rest ih =>
    simp only [Detector.loop, Detector.read]
    by_cases h : b = c
    · subst h
      simp [adjacentDiffCount, ih]
    · have hne : b ≠ c := h
      simp only [ne_eq, hne, not_false_eq_true, if_true, if_pos]
      simp only [adjacentDiffCount, ne_eq, Ne.symm hne, not_false_eq_true,
        if_true, List.length_cons, ih]
      omega

/-- C1.  For every finite sequence of boolean samples consumed by
`Detector.start` (head = priming read, tail = one read per loop iteration),
the number of edge events — each of which dispatches the registered
callbacks — equals the number of adjacent differing pairs of the sampled
sequence; and a run that consumes only the priming read dispatches no
callbacks at all, even when that first sample differs from the initial
inactive state. -/
theorem detector_edge_count (cbs : List Callback) (samples : List Bool) :
    (Detector.start cbs samples).length = adjacentDiffCount samples ∧
      ∀ b : Bool, Detector.start cbs [b] = [] := by
  constructor
  · cases samples with
    | nil => rfl
    | cons s0 rest =>
      simpa [Detector.start, Detector.read, Detector.init, adjacentDiffCount]
        using Detector.loop_length rest cbs s0 false
  · intro b
    rfl

/-- C3.  Handler isolation: for every subscriber list (including handlers
that raise on every invocation) and every sampled sequence, each emitted edge
event invokes every registered handler exactly once, in registration order,
with the event's state — a raising handler does not prevent the remaining
handlers from running — and the polling loop keeps sampling regardless of the
handler outcomes: the number of edges it emits is still the number of adjacent
differing pairs, so a handler that raises on every invocation is invoked again
at the next edge. -/
theorem detector_handler_isolation (cbs : List Callback) (samples : List Bool)
    (ev : EdgeEvent) (hev : ev ∈ Detector.start cbs samples) :
    ev.2 = cbs.map (fun cb => cb ev.1) ∧
      ev.2.length = cbs.length ∧
      (Detector.start cbs samples).length = adjacentDiffCount samples := by
  have hcb : ev.2 = Detector.trigger_callbacks cbs ev.1 := by
    cases samples with
    | nil => simp [Detector.start] at hev
    | cons s0 rest =>
      have := Detector.loop_event_outcomes rest
        (Detector.read (Detector.init cbs) s0) ev hev
      simpa [Detector.read, Detector.init] using this
  have hmap : ev.2 = cbs.map (fun cb => cb ev.1) := by
    rw [hcb, Detector.trigger_callbacks_eq_map]
  refine ⟨hmap, ?_, ?_⟩
  · rw [hmap, List.length_map]
  · cases samples with
    | nil => rfl
    | cons s0 rest =>
      simpa [Detector.start, Detector.read, Detector.init, adjacentDiffCount]
        using Detector.loop_length rest cbs s0 false

/-- A handler that raises on every invocation, used to exercise the handler
isolation of the dispatcher on a concrete run. -/
def raisingHandler : Callback := fun _ => Except.error "boom"

/-- The single edge event emitted when `raisingHandler` is the only subscriber
and the sampled sequence is `[false, true]`. -/
def raisingHandlerEvent : EdgeEvent :=
  (true, [Except.error "boom"])

/-- Witness for C3 at a concrete input: one handler that raises on every
invocation, sample sequence `[false, true]` (priming read `false`, one loop
read `true`), the single emitted event carrying state `true`. -/
theorem detector_handler_isolation_witness :
    raisingHandlerEvent ∈ Detector.start [raisingHandler] [false, true] ∧
      raisingHandlerEvent.2 = [raisingHandler].map (fun cb => cb raisingHandlerEvent.1) ∧
        raisingHandlerEvent.2.length = ([raisingHandler] : List Callback).length ∧
          (Detector.start [raisingHandler] [false, true]).length =
            adjacentDiffCount [false, true] := by
  have hmem : raisingHandlerEvent ∈ Detector.start [raisingHandler] [false, true] := by
    show raisingHandlerEvent ∈ [raisingHandlerEvent]
    exact List.mem_singleton.mpr rfl
  exact ⟨hmem, detector_handler_isolation [raisingHandler] [false, true] raisingHandlerEvent hmem⟩

end Pirdetect

namespace Scare2

/-- The handle returned by a successful `subprocess.Popen`: the child's final
return code, and the number of `poll` iterations of the sleep loop before the
child is observed to have exited. -/
structure ProcHandle where
  returncode : Int
  pollsUntilExit : Nat

/-- The `while sub.poll() is None: time.sleep(0.1)` loop of `subprocess_wait`:
after the child's finitely many in-flight polls it yields the child's return
code. -/
def pollLoop (returncode : Int) : Nat → Int
  | 0 => returncode
  | n + 1 => pollLoop returncode n

/-- Observable actions of one scare cycle of `ScareSystemWithRecording`. -/
inductive Ev
  /-- `sp.Popen(record_cmd)` succeeded: the background recording was
  launched without blocking. -/
  | launchBg (cmd : List String)
  /-- `subprocess_wait` launched the process and blocked until it exited. -/
  | play (cmd : List String)
  /-- the `Popen` inside `subprocess_wait` raised; the exception was caught
  inside `subprocess_wait`, logged, and `False` returned. -/
  | playFailed (cmd : List String)
  /-- `sub_record.poll()` was `None` after the scare video, so
  `sub_record.wait()` blocked until the recording process exited. -/
  | waitRecording
  /-- the recording file did not exist: a warning was logged and playback of
  the recording skipped. -/
  | warnSkipPlayback
  /-- the cycle-level `except Exception` of `on_motion` caught an exception
  and logged it. -/
  | seqError (msg : String)
deriving DecidableEq

/-- `ScareSystemWithRecording.subprocess_wait`: launch the child, busy-wait
until it exits, and return whether its return code is 0; a raising launch is
caught inside the function, which then returns `False`.  The second component
is the trace of the step. -/
def subprocess_wait (launch : Except String ProcHandle) (params : List String) :
    Bool × List Ev :=
  match launch with
  | Except.ok sub => (pollLoop sub.returncode sub.pollsUntilExit == 0, [Ev.play params])
  | Except.error _ => (false, [Ev.playFailed params])

/-- The `video` section of the configuration consumed by
`get_video_command`. -/
structure VideoConfig where
  player : String
  output : String
  width : Nat
  height : Nat
  aspect_mode : String
  orient : Int
  volume : Int
  show_osd : Bool

/-- The `camera` section of the configuration consumed by
`get_record_command`. -/
structure CameraConfig where
  duration : Nat
  cam_rot : Int
  preview : Bool

/-- `get_video_command`: the `omxplayer` argument list built from the config
and the video path. -/
def get_video_command (cfg : VideoConfig) (video_path : String) : List String :=
  [cfg.player, video_path,
   "-o", cfg.output,
   "--win", "0 0 " ++ toString cfg.width ++ " " ++ toString cfg.height,
   "--aspect-mode", cfg.aspect_mode,
   "--orientation", toString cfg.orient,
   "--vol", toString cfg.volume] ++
    (if cfg.show_osd then [] else ["--no-osd"])

/-- `get_record_command`: the `raspivid` argument list built from the config
and the output file. -/
def get_record_command (cfg : CameraConfig) (output_file : String) : List String :=
  ["raspivid", "-o", output_file,
   "-t", toString cfg.duration,
   "-rot", toString cfg.cam_rot] ++
    (if cfg.preview then [] else ["-n"])

/-- The external-world outcomes a single call of
`ScareSystemWithRecording.on_motion` can observe: the result of the
background-recording `Popen`, the results of the two launches performed
inside `subprocess_wait` (scare video, recording playback), whether the
recording process is still running once the scare video has exited, and
whether the recording file exists afterwards. -/
structure MotionEnv where
  recordLaunch : Except String ProcHandle
  videoLaunch : Except String ProcHandle
  recRunningAfterVideo : Bool
  recFileExists : Bool
  playbackLaunch : Except String ProcHandle

/-- `ScareSystemWithRecording.on_motion`: on a falling edge return at once;
on a rising edge launch the recording in the background, play the scare
video (blocking, via `subprocess_wait`), join the recording process if it is
still running, then play the recording back if its file exists, else log a
warning.  The only statement inside the `try` block that can raise is the
bare `sp.Popen(record_cmd)` (every other launch goes through
`subprocess_wait`, which catches internally), and its exception is caught by
the cycle-level `except Exception`, which logs and returns. -/
def on_motion (cfg : VideoConfig) (cam : CameraConfig)
    (scare_file recording_file : String) (env : MotionEnv)
    (curr_state : Bool) : List Ev :=
  if curr_state = false then []
  else
    match env.recordLaunch with
    | Except.error e => [Ev.seqError e]
    | Except.ok _ =>
      Ev.launchBg (get_record_command cam recording_file)
        :: (subprocess_wait env.videoLaunch (get_video_command cfg scare_file)).2
        ++ (if env.recRunningAfterVideo then [Ev.waitRecording] else [])
        ++ (if env.recFileExists then
              (subprocess_wait env.playbackLaunch (get_video_command cfg recording_file)).2
            else [Ev.warnSkipPlayback])

/-- The number of playback attempts (successful or failed launches inside
`subprocess_wait`) for a given command in a trace. -/
def countPlays (cmd : List String) (tr : List Ev) : Nat :=
  tr.countP (fun ev =>
    match ev with
    | Ev.play c => c == cmd
    | Ev.playFailed c => c == cmd
    | _ => false)

theorem pollLoop_eq (returncode : Int) (n : Nat) :
    pollLoop returncode n = returncode := by
  induction n with
  | zero => rfl
  | succ n ih => simpa [pollLoop] using ih

/-- C10.  `subprocess_wait` is total at its interface: it returns a boolean
for every launch outcome and exit behaviour (the poll loop terminates for
every finite exit time, and a raising launch is caught), and the boolean is
`true` exactly when the launch succeeded and the child exited with return
code 0. -/
theorem subprocess_wait_total (launch : Except String ProcHandle)
    (params : List String) :
    (subprocess_wait launch params).1 = true ↔
      ∃ h : ProcHandle, launch = Except.ok h ∧ h.returncode = 0 := by
  cases launch with
  | ok sub =>
    simp [subprocess_wait, pollLoop_eq]
  | error e =>
    simp [subprocess_wait]

/-- The step trace of `subprocess_wait` is one playback attempt with exactly
the given command, whether the launch succeeds or raises. -/
theorem countPlays_subprocess_wait (launch : Except String ProcHandle)
    (params cmd : List String) :
    countPlays cmd (subprocess_wait launch params).2 =
      if params = cmd then 1 else 0 := by
  cases launch <;>
    by_cases h : params = cmd <;>
      simp [subprocess_wait, countPlays, h]

/-- `get_video_command` embeds the video path at a fixed argument position,
so distinct paths yield distinct commands. -/
theorem get_video_command_injective_path (cfg : VideoConfig) {p q : String}
    (h : p ≠ q) : get_video_command cfg p ≠ get_video_command cfg q := by
  intro heq
  simp only [get_video_command, List.append_eq_append_iff] at heq
  simp [List.cons_eq_cons] at heq
  rcases heq with heq | heq
  · exact h heq.symm
  · exact h heq

/-- C2.  Recording-variant scare cycle: on a rising edge, with the camera
recording successfully launched, `on_motion` performs exactly the sequence:
background recording launch, blocking scare-video playback, a blocking join
of the recording process exactly when it is still running, and then blocking
playback of the recording if its file exists or a skip-playback warning if it
does not; it completes without raising (the trace is returned in every
environment), attempts the scare-video playback exactly once, and attempts
the recording playback once when the file exists and never when it does
not — in which case the skip warning is in the trace. -/
theorem on_motion_recording_sequence (cfg : VideoConfig) (cam : CameraConfig)
    (scare_file recording_file : String) (env : MotionEnv) (ph : ProcHandle)
    (hrec : env.recordLaunch = Except.ok ph)
    (hne : scare_file ≠ recording_file) :
    on_motion cfg cam scare_file recording_file env true =
        Ev.launchBg (get_record_command cam recording_file)
          :: (subprocess_wait env.videoLaunch (get_video_command cfg scare_file)).2
          ++ (if env.recRunningAfterVideo then [Ev.waitRecording] else [])
          ++ (if env.recFileExists then
                (subprocess_wait env.playbackLaunch
                  (get_video_command cfg recording_file)).2
              else [Ev.warnSkipPlayback]) ∧
      countPlays (get_video_command cfg scare_file)
          (on_motion cfg cam scare_file recording_file env true) = 1 ∧
      countPlays (get_video_command cfg recording_file)
          (on_motion cfg cam scare_file recording_file env true) =
        (if env.recFileExists then 1 else 0) ∧
      (env.recFileExists = false →
        Ev.warnSkipPlayback ∈ on_motion cfg cam scare_file recording_file env true) := by
  have htr : on_motion cfg cam scare_file recording_file env true =
      Ev.launchBg (get_record_command cam recording_file)
        :: (subprocess_wait env.videoLaunch (get_video_command cfg scare_file)).2
        ++ (if env.recRunningAfterVideo then [Ev.waitRecording] else [])
        ++ (if env.recFileExists then
              (subprocess_wait env.playbackLaunch
                (get_video_command cfg recording_file)).2
            else [Ev.warnSkipPlayback]) := by
    simp [on_motion, hrec]
  have hvid_ne : get_video_command cfg scare_file ≠
      get_video_command cfg recording_file :=
    get_video_command_injective_path cfg hne
  refine ⟨htr, ?_, ?_, ?_⟩
  · rw [htr]
    simp only [countPlays, List.countP_cons, List.countP_append]
    have h1 := countPlays_subprocess_wait env.videoLaunch
      (get_video_command cfg scare_file) (get_video_command cfg scare_file)
    have h2 := countPlays_subprocess_wait env.playbackLaunch
      (get_video_command cfg recording_file) (get_video_command cfg scare_file)
    simp only [countPlays, if_pos rfl, if_neg (Ne.symm hvid_ne)] at h1 h2
    cases henv : env.recRunningAfterVideo <;>
      cases hex : env.recFileExists <;>
        simp [h1, h2, countPlays, List.countP_cons, List.countP_append]
  · rw [htr]
    simp only [countPlays, List.countP_cons, List.countP_append]
    have h1 := countPlays_subprocess_wait env.videoLaunch
      (get_video_command cfg scare_file) (get_video_command cfg recording_file)
    have h2 := countPlays_subprocess_wait env.playbackLaunch
      (get_video_command cfg recording_file) (get_video_command cfg recording_file)
    simp only [countPlays, if_pos rfl, if_neg hvid_ne] at h1 h2
    cases henv : env.recRunningAfterVideo <;>
      cases hex : env.recFileExists <;>
        simp [h1, h2, countPlays, List.countP_cons, List.countP_append]
  · intro hex
    rw [htr]
    simp [hex]

/-- The default `video` configuration of `get_default_config`. -/
def defaultVideoConfig : VideoConfig :=
  { player := "omxplayer", output := "both", width := 1280, height := 720,
    aspect_mode := "fill", orient := 180, volume := -600, show_osd := false }

/-- The default `camera` configuration of `get_default_config`. -/
def defaultCameraConfig : CameraConfig :=
  { duration := 5000, cam_rot := 180, preview := false }

/-- A concrete environment for scenario B: all launches succeed, the
recording process is still running after the scare video, and the recording
file never materializes. -/
def scenarioBEnv : MotionEnv :=
  { recordLaunch := Except.ok ⟨0, 3⟩, videoLaunch := Except.ok ⟨0, 7⟩,
    recRunningAfterVideo := true, recFileExists := false,
    playbackLaunch := Except.ok ⟨0, 0⟩ }

/-- Witness for C2: scenario B at the default configuration — the recording
file never materializes, the scare-video playback is attempted exactly once,
the recording playback never, and the skip warning is in the trace. -/
theorem on_motion_recording_sequence_witness :
    countPlays (get_video_command defaultVideoConfig "/m/MaleScareV.mp4")
        (on_motion defaultVideoConfig defaultCameraConfig "/m/MaleScareV.mp4"
          "/r/x.h264" scenarioBEnv true) = 1 ∧
      countPlays (get_video_command defaultVideoConfig "/r/x.h264")
          (on_motion defaultVideoConfig defaultCameraConfig "/m/MaleScareV.mp4"
            "/r/x.h264" scenarioBEnv true) = 0 ∧
      Ev.warnSkipPlayback ∈ on_motion defaultVideoConfig defaultCameraConfig
          "/m/MaleScareV.mp4" "/r/x.h264" scenarioBEnv true := by
  have h := on_motion_recording_sequence defaultVideoConfig defaultCameraConfig
    "/m/MaleScareV.mp4" "/r/x.h264" scenarioBEnv ⟨0, 3⟩ rfl (by decide)
  refine ⟨h.2.1, ?_, h.2.2.2 rfl⟩
  have h3 := h.2.2.1
  simpa [scenarioBEnv] using h3

/-- A concrete environment in which the background-recording `Popen` raises
(e.g. the `raspivid` binary is absent) while everything else would
succeed. -/
def recordFailEnv : MotionEnv :=
  { recordLaunch := Except.error "FileNotFoundError: raspivid",
    videoLaunch := Except.ok ⟨0, 0⟩, recRunningAfterVideo := false,
    recFileExists := true, playbackLaunch := Except.ok ⟨0, 0⟩ }

/-- Counterexample to C4 as stated: when the camera-recording launch raises
on a rising edge, the cycle-level `except Exception` of `on_motion` catches
it and returns immediately — the whole trace is the one error log — so the
scare video is NOT played in that cycle (zero playback attempts), contrary
to the claim that each launch failure is caught at its own step and the
remaining steps still run. -/
theorem on_motion_record_launch_fail_cex :
    on_motion defaultVideoConfig defaultCameraConfig "/m/MaleScareV.mp4"
        "/r/x.h264" recordFailEnv true =
      [Ev.seqError "FileNotFoundError: raspivid"] ∧
    countPlays (get_video_command defaultVideoConfig "/m/MaleScareV.mp4")
        (on_motion defaultVideoConfig defaultCameraConfig "/m/MaleScareV.mp4"
          "/r/x.h264" recordFailEnv true) = 0 := by
  exact ⟨rfl, rfl⟩

/-- C4 (amended).  A failure of the bare `sp.Popen(record_cmd)` is caught by
the cycle-level handler of `on_motion`: the exception is logged and
`on_motion` returns without raising, but the remaining steps of that cycle
are skipped.  A launch failure inside `subprocess_wait` (scare-video
playback here) is caught within `subprocess_wait`, so only that step fails
and the cycle continues with the recording join and the playback-or-warn
step. -/
theorem on_motion_launch_failure_amended (cfg : VideoConfig)
    (cam : CameraConfig) (scare_file recording_file : String)
    (env : MotionEnv) :
    (∀ e : String, env.recordLaunch = Except.error e →
      on_motion cfg cam scare_file recording_file env true = [Ev.seqError e]) ∧
      (∀ (ph : ProcHandle) (e : String), env.recordLaunch = Except.ok ph →
        env.videoLaunch = Except.error e →
        on_motion cfg cam scare_file recording_file env true =
          Ev.launchBg (get_record_command cam recording_file)
            :: Ev.playFailed (get_video_command cfg scare_file)
            :: (if env.recRunningAfterVideo then [Ev.waitRecording] else [])
            ++ (if env.recFileExists then
                  (subprocess_wait env.playbackLaunch
                    (get_video_command cfg recording_file)).2
                else [Ev.warnSkipPlayback])) := by
  constructor
  · intro e he
    simp [on_motion, he]
  · intro ph e hok hvid
    simp [on_motion, hok, hvid, subprocess_wait]

/-- A concrete environment in which the scare-video launch inside
`subprocess_wait` raises while the recording launch succeeds. -/
def videoFailEnv : MotionEnv :=
  { recordLaunch := Except.ok ⟨0, 2⟩,
    videoLaunch := Except.error "FileNotFoundError: omxplayer",
    recRunningAfterVideo := true, recFileExists := false,
    playbackLaunch := Except.ok ⟨0, 0⟩ }

/-- Witness for the amended C4 at concrete inputs: a raising recording
launch yields exactly the one-error trace, and a raising scare-video launch
is contained in its step, the cycle continuing with the recording join and
the skip warning. -/
theorem on_motion_launch_failure_amended_witness :
    on_motion defaultVideoConfig defaultCameraConfig "/m/MaleScareV.mp4"
        "/r/x.h264" recordFailEnv true =
      [Ev.seqError "FileNotFoundError: raspivid"] ∧
    on_motion defaultVideoConfig defaultCameraConfig "/m/MaleScareV.mp4"
        "/r/x.h264" videoFailEnv true =
      Ev.launchBg (get_record_command defaultCameraConfig "/r/x.h264")
        :: Ev.playFailed (get_video_command defaultVideoConfig "/m/MaleScareV.mp4")
        :: (if videoFailEnv.recRunningAfterVideo then [Ev.waitRecording] else [])
        ++ (if videoFailEnv.recFileExists then
              (subprocess_wait videoFailEnv.playbackLaunch
                (get_video_command defaultVideoConfig "/r/x.h264")).2
            else [Ev.warnSkipPlayback]) := by
  constructor
  · exact (on_motion_launch_failure_amended defaultVideoConfig
      defaultCameraConfig "/m/MaleScareV.mp4" "/r/x.h264" recordFailEnv).1
      "FileNotFoundError: raspivid" rfl
  · exact (on_motion_launch_failure_amended defaultVideoConfig
      defaultCameraConfig "/m/MaleScareV.mp4" "/r/x.h264" videoFailEnv).2
      ⟨0, 2⟩ "FileNotFoundError: omxplayer" rfl rfl

end Scare2

namespace ScareRandom

/-- The rotation state of `AdvancedScareSystem`: `currentTheme` and
`newTheme` model the source fields holding the current and candidate theme
names (`current_` / `new_` plus the suffix-naming convention of the source),
together with `scare_file`, `start_time` and `rotation_minutes`. -/
structure RotationState where
  currentTheme : String
  newTheme : String
  scare_file : String
  start_time : Int
  rotation_minutes : Int

/-- `random.choice(video_themes)` driven by an externally supplied draw
index: the draw selects the element at `i % length` (the source's choice is
uniform over the list; any index stream can occur, which is what the claims
quantify over).  The source raises on an empty list; the claims only use
non-empty theme lists. -/
def randomChoice (xs : List String) (i : Nat) : String :=
  xs.getD (i % xs.length) ""

/-- The retry loop of `change_video`:
`while new == current and attempts < 10: new = random.choice(themes); attempts += 1`.
`fuel` is `10 - attempts`, so `fuel > 0` is exactly the source's
`attempts < 10` guard and the recursion is structural.  Returns the final
candidate theme and the final `attempts` counter. -/
def drawLoopAux (themes : List String) (current : String) (rng : Nat → Nat) :
    Nat → String → Nat → String × Nat
  | 0, newTheme, attempts => (newTheme, attempts)
  | fuel + 1, newTheme, attempts =>
    if newTheme = current then
      drawLoopAux themes current rng fuel (randomChoice themes (rng attempts))
        (attempts + 1)
    else
      (newTheme, attempts)

/-- The outcome of one `change_video` call: the updated state, whether a
rotation was performed (the branch that updates the current theme, resets
`start_time` and refreshes the start image), whether the
could-not-find-different-video warning was logged, and how many random draws
the retry loop performed. -/
structure ChangeVideoOut where
  state : RotationState
  rotated : Bool
  warned : Bool
  draws : Nat

/-- `AdvancedScareSystem.change_video`: if the elapsed time since
`start_time` is strictly greater than `rotation_minutes * 60`, run the
bounded retry loop; if it exhausted its budget (`attempts >= 10`), log a
warning and return with the theme unchanged; otherwise commit the new theme,
rebuild `scare_file`, reset `start_time` to now and refresh the display.
The filesystem oracle `fs` is a parameter only to record that the source
consults no file existence here (no asset check at theme-switch time). -/
def change_video (_fs : String → Bool) (media_dir video_suffix : String)
    (themes : List String) (rng : Nat → Nat) (now : Int)
    (s : RotationState) : ChangeVideoOut :=
  if now - s.start_time > s.rotation_minutes * 60 then
    let r := drawLoopAux themes s.currentTheme rng 10 s.newTheme 0
    if r.2 ≥ 10 then
      { state := { s with newTheme := r.1 },
        rotated := false, warned := true, draws := r.2 }
    else
      { state := { currentTheme := r.1, newTheme := r.1,
                   scare_file := media_dir ++ "/" ++ r.1 ++ video_suffix,
                   start_time := now, rotation_minutes := s.rotation_minutes },
        rotated := true, warned := false, draws := r.2 }
  else
    { state := s, rotated := false, warned := false, draws := 0 }

theorem drawLoopAux_attempts_le (themes : List String) (current : String)
    (rng : Nat → Nat) :
    ∀ (fuel : Nat) (new0 : String) (a0 : Nat),
      (drawLoopAux themes current rng fuel new0 a0).2 ≤ a0 + fuel := by
  intro fuel
  induction fuel with
  | zero => intro new0 a0; simp [drawLoopAux]
  | succ fuel ih =>
    intro new0 a0
    by_cases h : new0 = current
    · simp only [drawLoopAux, if_pos h]
      have := ih (randomChoice themes (rng a0)) (a0 + 1)
      omega
    · simp only [drawLoopAux, if_neg h]
      omega

/-- If the retry loop exits before its budget, the candidate it returns
differs from the current theme. -/
theorem drawLoopAux_early_exit_ne (themes : List String) (current : String)
    (rng : Nat → Nat) :
    ∀ (fuel : Nat) (new0 : String) (a0 : Nat),
      (drawLoopAux themes current rng fuel new0 a0).2 < a0 + fuel →
        (drawLoopAux themes current rng fuel new0 a0).1 ≠ current := by
  intro fuel
  induction fuel with
  | zero => intro new0 a0 h; simp [drawLoopAux] at h
  | succ fuel ih =>
    intro new0 a0 h
    by_cases hnc : new0 = current
    · simp only [drawLoopAux, if_pos hnc] at h ⊢
      exact ih (randomChoice themes (rng a0)) (a0 + 1) (by omega)
    · simp only [drawLoopAux, if_neg hnc]
      exact hnc

/-- With a single configured theme equal to both the current and the
candidate theme, every draw returns that theme and the loop consumes its
whole budget. -/
theorem drawLoopAux_single_theme (t : String) (rng : Nat → Nat) :
    ∀ (fuel : Nat) (a0 : Nat),
      drawLoopAux [t] t rng fuel t a0 = (t, a0 + fuel) := by
  intro fuel
  induction fuel with
  | zero => intro a0; simp [drawLoopAux]
  | succ fuel ih =>
    intro a0
    have hc : randomChoice [t] (rng a0) = t := by
      simp [randomChoice, Nat.mod_one]
    simp only [drawLoopAux, if_pos rfl, hc]
    rw [ih (a0 + 1), if_true]
    have harith : a0 + 1 + fuel = a0 + (fuel + 1) := by omega
    rw [harith]

/-- A concrete rotation state: current and candidate theme both `Male`,
rotation interval one minute, last rotation at time 0. -/
def maleState : RotationState :=
  { currentTheme := "Male", newTheme := "Male",
    scare_file := "/m/MaleScareV.mp4", start_time := 0, rotation_minutes := 1 }

/-- Counterexample to C6 as stated.  First input: elapsed 61 s, interval
60 s (so elapsed is at least — indeed strictly above — the interval), two
configured themes, and a draw stream that returns index 0 (`Male`) on every
draw: the retry loop exhausts its 10-draw budget without securing a
different theme, `change_video` returns with a warning, and the current
theme after the call equals the one before, contrary to the claim.  Second
input: elapsed exactly 60 s = the interval ("at least" holds) with a draw
stream that would immediately yield `Female`: the source's strict
`elapsed_time > rotation_minutes * 60` comparison skips rotation entirely
and the theme is again unchanged. -/
theorem change_video_always_rotates_cex :
    ((change_video (fun _ => true) "/m" "ScareV.mp4" ["Male", "Female"]
          (fun _ => 0) 61 maleState).state.currentTheme = "Male" ∧
        maleState.currentTheme = "Male" ∧
        (61 : Int) - maleState.start_time ≥ maleState.rotation_minutes * 60 ∧
        2 ≤ (["Male", "Female"] : List String).length) ∧
      ((change_video (fun _ => true) "/m" "ScareV.mp4" ["Male", "Female"]
          (fun _ => 1) 60 maleState).state.currentTheme = "Male" ∧
        (60 : Int) - maleState.start_time ≥ maleState.rotation_minutes * 60) := by
  exact ⟨⟨rfl, rfl, by decide, by decide⟩, ⟨rfl, by decide⟩⟩

/-- C6 (amended).  Whenever `change_video` runs with elapsed time strictly
greater than `rotation_minutes * 60` and at least two configured themes,
either a rotation is performed and the current theme after the call differs
from the one before, or the retry loop exhausted its 10-draw budget without
securing a different theme and the current theme is unchanged (with the
warning logged). -/
theorem change_video_rotation_amended (fs : String → Bool)
    (media_dir video_suffix : String) (themes : List String)
    (rng : Nat → Nat) (now : Int) (s : RotationState)
    (hel : now - s.start_time > s.rotation_minutes * 60)
    (hth : 2 ≤ themes.length) :
    ((change_video fs media_dir video_suffix themes rng now s).rotated = true ∧
        (change_video fs media_dir video_suffix themes rng now s).state.currentTheme ≠
          s.currentTheme) ∨
      ((change_video fs media_dir video_suffix themes rng now s).draws = 10 ∧
        (change_video fs media_dir video_suffix themes rng now s).warned = true ∧
        (change_video fs media_dir video_suffix themes rng now s).state.currentTheme =
          s.currentTheme) := by
  have hle := drawLoopAux_attempts_le themes s.currentTheme rng 10 s.newTheme 0
  by_cases hr : (drawLoopAux themes s.currentTheme rng 10 s.newTheme 0).2 ≥ 10
  · right
    simp [change_video, if_pos hel, hr]
    omega
  · left
    have hne := drawLoopAux_early_exit_ne themes s.currentTheme rng 10
      s.newTheme 0 (by omega)
    simp [change_video, if_pos hel, hr]
    exact hne

/-- Witness for the amended C6: elapsed 61 s against a 60 s interval, two
themes, draw stream constantly index 1 (`Female`): the hypotheses hold and
the rotation outcome is as the theorem states. -/
theorem change_video_rotation_amended_witness :
    ((61 : Int) - maleState.start_time > maleState.rotation_minutes * 60 ∧
        2 ≤ (["Male", "Female"] : List String).length) ∧
      (((change_video (fun _ => true) "/m" "ScareV.mp4" ["Male", "Female"]
            (fun _ => 1) 61 maleState).rotated = true ∧
          (change_video (fun _ => true) "/m" "ScareV.mp4" ["Male", "Female"]
              (fun _ => 1) 61 maleState).state.currentTheme ≠
            maleState.currentTheme) ∨
        ((change_video (fun _ => true) "/m" "ScareV.mp4" ["Male", "Female"]
            (fun _ => 1) 61 maleState).draws = 10 ∧
          (change_video (fun _ => true) "/m" "ScareV.mp4" ["Male", "Female"]
              (fun _ => 1) 61 maleState).warned = true ∧
          (change_video (fun _ => true) "/m" "ScareV.mp4" ["Male", "Female"]
              (fun _ => 1) 61 maleState).state.currentTheme =
            maleState.currentTheme)) :=
  ⟨⟨by decide, by decide⟩,
    change_video_rotation_amended (fun _ => true) "/m" "ScareV.mp4"
      ["Male", "Female"] (fun _ => 1) 61 maleState (by decide) (by decide)⟩

/-- C7.  Whenever `change_video` performs no rotation — because the elapsed
time is not strictly above the interval, or because the retry budget was
exhausted without finding a distinct theme — the current theme, the scare
file path and `start_time` are all unchanged by the call. -/
theorem change_video_no_rotation_frame (fs : String → Bool)
    (media_dir video_suffix : String) (themes : List String)
    (rng : Nat → Nat) (now : Int) (s : RotationState)
    (h : (change_video fs media_dir video_suffix themes rng now s).rotated = false) :
    (change_video fs media_dir video_suffix themes rng now s).state.currentTheme =
        s.currentTheme ∧
      (change_video fs media_dir video_suffix themes rng now s).state.scare_file =
        s.scare_file ∧
      (change_video fs media_dir video_suffix themes rng now s).state.start_time =
        s.start_time := by
  by_cases hel : now - s.start_time > s.rotation_minutes * 60
  · by_cases hr : (drawLoopAux themes s.currentTheme rng 10 s.newTheme 0).2 ≥ 10
    · simp [change_video, if_pos hel, hr]
    · simp [change_video, if_pos hel, hr] at h
  · simp [change_video, if_neg hel]

/-- Witness for C7: elapsed 30 s against a 60 s interval — no rotation is
performed and the three fields are unchanged. -/
theorem change_video_no_rotation_frame_witness :
    (change_video (fun _ => true) "/m" "ScareV.mp4" ["Male", "Female"]
          (fun _ => 1) 30 maleState).rotated = false ∧
      ((change_video (fun _ => true) "/m" "ScareV.mp4" ["Male", "Female"]
            (fun _ => 1) 30 maleState).state.currentTheme = maleState.currentTheme ∧
        (change_video (fun _ => true) "/m" "ScareV.mp4" ["Male", "Female"]
            (fun _ => 1) 30 maleState).state.scare_file = maleState.scare_file ∧
        (change_video (fun _ => true) "/m" "ScareV.mp4" ["Male", "Female"]
            (fun _ => 1) 30 maleState).state.start_time = maleState.start_time) :=
  ⟨rfl, change_video_no_rotation_frame (fun _ => true) "/m" "ScareV.mp4"
    ["Male", "Female"] (fun _ => 1) 30 maleState rfl⟩

/-- C8.  With exactly one configured theme (equal to the current and
candidate theme, as established at startup), every `change_video` call
terminates with a bounded retry: it performs at most 10 random draws, leaves
the current theme unchanged, and — whenever the elapsed time makes the
rotation branch run at all — performs exactly 10 draws and logs the
could-not-find-different-video warning. -/
theorem change_video_single_theme_terminates (fs : String → Bool)
    (media_dir video_suffix : String) (t : String) (rng : Nat → Nat)
    (now : Int) (s : RotationState)
    (hc : s.currentTheme = t) (hn : s.newTheme = t) :
    (change_video fs media_dir video_suffix [t] rng now s).draws ≤ 10 ∧
      (change_video fs media_dir video_suffix [t] rng now s).state.currentTheme =
        s.currentTheme ∧
      (now - s.start_time > s.rotation_minutes * 60 →
        (change_video fs media_dir video_suffix [t] rng now s).draws = 10 ∧
          (change_video fs media_dir video_suffix [t] rng now s).warned = true) := by
  by_cases hel : now - s.start_time > s.rotation_minutes * 60
  · have hdraw : drawLoopAux [t] s.currentTheme rng 10 s.newTheme 0 = (t, 10) := by
      rw [hc, hn]
      exact drawLoopAux_single_theme t rng 10 0
    simp [change_video, if_pos hel, hdraw]
  · simp [change_video, if_neg hel, hel]

/-- A rotation state for the single-theme scenario. -/
def soloState : RotationState :=
  { currentTheme := "Male", newTheme := "Male",
    scare_file := "/m/MaleScareV.mp4", start_time := 0, rotation_minutes := 1 }

/-- Witness for C8: a single configured theme, elapsed 61 s against a 60 s
interval — the call performs exactly 10 draws, keeps the theme and logs the
warning. -/
theorem change_video_single_theme_terminates_witness :
    (soloState.currentTheme = "Male" ∧ soloState.newTheme = "Male") ∧
      ((change_video (fun _ => true) "/m" "ScareV.mp4" ["Male"]
            (fun _ => 0) 61 soloState).draws ≤ 10 ∧
        (change_video (fun _ => true) "/m" "ScareV.mp4" ["Male"]
            (fun _ => 0) 61 soloState).state.currentTheme = soloState.currentTheme ∧
        ((61 : Int) - soloState.start_time > soloState.rotation_minutes * 60 →
          (change_video (fun _ => true) "/m" "ScareV.mp4" ["Male"]
              (fun _ => 0) 61 soloState).draws = 10 ∧
            (change_video (fun _ => true) "/m" "ScareV.mp4" ["Male"]
                (fun _ => 0) 61 soloState).warned = true)) :=
  ⟨⟨rfl, rfl⟩,
    change_video_single_theme_terminates (fun _ => true) "/m" "ScareV.mp4"
      "Male" (fun _ => 0) 61 soloState rfl rfl⟩

end ScareRandom

namespace Scare

/-- The startup steps performed by `run` once (and if) it proceeds past its
checks, in source order, up to entering the blocking detection loop. -/
inductive RunStep
  | ensureRecordingsDir
  | showImage (path : String)
  | createDetector
  | subscribeHandler
  | startLoop
deriving DecidableEq

/-- The outcome of `run`: either the process exits with a code before the
detection loop, or it performs the listed startup steps and enters the
loop. -/
inductive RunResult
  | exit (code : Nat)
  | loop (steps : List RunStep)
deriving DecidableEq

/-- The startup steps of a `RunResult` (none when the process exited). -/
def RunResult.stepsOf : RunResult → List RunStep
  | RunResult.exit _ => []
  | RunResult.loop steps => steps

/-- `ScareSystem.validate_media_files`: the video file is checked first,
then the image file; either missing file fails the check. -/
def validate_media_files (fs : String → Bool)
    (media_dir video_suffix image_suffix video_name : String) : Bool :=
  if fs (media_dir ++ "/" ++ video_name ++ video_suffix) = false then false
  else if fs (media_dir ++ "/" ++ video_name ++ image_suffix) = false then false
  else true

/-- `ScareSystem.run` (basic variant): pre-flight media check, `sys.exit(1)`
if it fails, otherwise show the start image, create the detector, subscribe
the handler and enter the detection loop. -/
def run (fs : String → Bool)
    (media_dir video_suffix image_suffix video_name : String) : RunResult :=
  if validate_media_files fs media_dir video_suffix image_suffix video_name = false then
    RunResult.exit 1
  else
    RunResult.loop
      [RunStep.showImage (media_dir ++ "/" ++ video_name ++ image_suffix),
       RunStep.createDetector, RunStep.subscribeHandler, RunStep.startLoop]

end Scare

namespace Scare2

/-- `ScareSystemWithRecording.run` (recording variant): it performs no media
pre-flight check at all — it unconditionally ensures the recordings
directory, shows the start image, creates the detector, subscribes the
handler and enters the detection loop.  The filesystem oracle is a parameter
only to record that the source never consults it here. -/
def run (_fs : String → Bool)
    (media_dir image_suffix video_name : String) : Scare.RunResult :=
  Scare.RunResult.loop
    [Scare.RunStep.ensureRecordingsDir,
     Scare.RunStep.showImage (media_dir ++ "/" ++ video_name ++ image_suffix),
     Scare.RunStep.createDetector, Scare.RunStep.subscribeHandler,
     Scare.RunStep.startLoop]

end Scare2

/-- Counterexample to C5 as stated: the recording variant (`scare2.py`) is a
non-rotating variant, yet with a filesystem on which every path is missing
its `run` does not exit — it reaches the detection loop (the trace contains
`startLoop` and `createDetector`), because the source has no pre-flight
asset check. -/
theorem missing_asset_preflight_cex :
    Scare2.run (fun _ => false) "/m" "Start.png" "Male" ≠
        Scare.RunResult.exit 1 ∧
      Scare.RunStep.startLoop ∈
        Scare.RunResult.stepsOf (Scare2.run (fun _ => false) "/m" "Start.png" "Male") ∧
      Scare.RunStep.createDetector ∈
        Scare.RunResult.stepsOf (Scare2.run (fun _ => false) "/m" "Start.png" "Male") := by
  refine ⟨by decide, ?_, ?_⟩ <;> simp [Scare2.run, Scare.RunResult.stepsOf]

/-- C5 (amended).  Missing-asset handling per variant: (a) in the basic
variant (`scare.py`), a theme whose video or image asset is missing is
detected by the pre-flight check before the detection loop starts and the
process exits with code 1; (b) the recording variant (`scare2.py`) performs
no asset pre-flight check — its startup is independent of the filesystem and
always reaches the detection loop; (c) the rotating variant performs no
asset check at theme-switch time either: the outcome of `change_video` is
independent of the filesystem, so no missing-asset warning can be issued
there. -/
theorem missing_asset_handling_amended (fs fs' : String → Bool)
    (media_dir video_suffix image_suffix video_name : String)
    (themes : List String) (rng : Nat → Nat) (now : Int)
    (s : ScareRandom.RotationState) :
    ((fs (media_dir ++ "/" ++ video_name ++ video_suffix) = false ∨
        fs (media_dir ++ "/" ++ video_name ++ image_suffix) = false) →
      Scare.run fs media_dir video_suffix image_suffix video_name =
        Scare.RunResult.exit 1) ∧
      (Scare2.run fs media_dir image_suffix video_name =
          Scare2.run fs' media_dir image_suffix video_name ∧
        Scare.RunStep.startLoop ∈
          Scare.RunResult.stepsOf (Scare2.run fs media_dir image_suffix video_name)) ∧
      ScareRandom.change_video fs media_dir video_suffix themes rng now s =
        ScareRandom.change_video fs' media_dir video_suffix themes rng now s := by
  refine ⟨?_, ⟨rfl, ?_⟩, rfl⟩
  · intro h
    rcases h with h | h <;>
      simp [Scare.run, Scare.validate_media_files, h]
  · simp [Scare2.run, Scare.RunResult.stepsOf]

/-- Witness for the amended C5 at concrete inputs: with every file missing,
the basic variant exits with code 1 while the recording variant reaches the
detection loop, and the rotating variant's `change_video` is oblivious to
the filesystem. -/
theorem missing_asset_handling_amended_witness :
    ((fun _ => false : String → Bool) ("/m" ++ "/" ++ "Male" ++ "ScareV.mp4") = false ∨
        (fun _ => false : String → Bool) ("/m" ++ "/" ++ "Male" ++ "Start.png") = false) ∧
      Scare.run (fun _ => false) "/m" "ScareV.mp4" "Start.png" "Male" =
          Scare.RunResult.exit 1 ∧
        (Scare2.run (fun _ => false) "/m" "Start.png" "Male" =
            Scare2.run (fun _ => true) "/m" "Start.png" "Male" ∧
          Scare.RunStep.startLoop ∈
            Scare.RunResult.stepsOf (Scare2.run (fun _ => false) "/m" "Start.png" "Male")) ∧
        ScareRandom.change_video (fun _ => false) "/m" "ScareV.mp4" ["Male"]
            (fun _ => 0) 61 ScareRandom.soloState =
          ScareRandom.change_video (fun _ => true) "/m" "ScareV.mp4" ["Male"]
            (fun _ => 0) 61 ScareRandom.soloState := by
  have h := missing_asset_handling_amended (fun _ => false) (fun _ => true)
    "/m" "ScareV.mp4" "Start.png" "Male" ["Male"] (fun _ => 0) 61
    ScareRandom.soloState
  exact ⟨Or.inl rfl, h.1 (Or.inl rfl), h.2.1, h.2.2⟩

namespace ScareRandom

/-- Startup outcome of `scarerandom.py`: either the process exits with a
code during validation, or validation passed and `run` proceeds to its side
effects (recordings directory, start image, detector creation, subscription,
detection loop).  `running` is the only constructor from which any detector
is created or any external process launched; every `exit` is produced before
those points. -/
inductive MainOutcome
  | exit (code : Nat)
  | running (theme : String) (minutes : Int)
deriving DecidableEq

/-- Python's `str.isdigit` restricted to ASCII: true exactly for non-empty
all-digit strings (so it rejects `""`, `"abc"`, `"-1"`, `"1.5"`). -/
def pyIsDigit (s : String) : Bool :=
  !s.isEmpty && s.toList.all Char.isDigit

/-- Python's `int(s)` for the strings that pass `isdigit`: the decimal value
of the digit sequence. -/
def pyInt (s : String) : Int :=
  (s.toList.foldl (fun acc c => acc * 10 + (c.toNat - 48)) 0 : Nat)

/-- `main` of `scarerandom.py` composed with the validation prefix of
`AdvancedScareSystem.run`: usage exit when fewer than two arguments;
`isdigit` check and positivity check on the minutes argument, each exiting
with code 1; then `run` validates the theme against the configured set and
calls `sys.exit(1)` if it is not a member — `SystemExit` is not caught by
the `except` clauses of `main`, so the process exits 1.  Only after all
checks pass does `run` reach the recordings directory, start image, detector
and detection loop. -/
def main (argv : List String) (themes : List String) : MainOutcome :=
  if argv.length < 3 then MainOutcome.exit 1
  else
    let video_name := argv.getD 1 ""
    let minutes_str := argv.getD 2 ""
    if pyIsDigit minutes_str = false then MainOutcome.exit 1
    else
      let rotation_minutes := pyInt minutes_str
      if rotation_minutes ≤ 0 then MainOutcome.exit 1
      else if video_name ∈ themes then
        MainOutcome.running video_name rotation_minutes
      else MainOutcome.exit 1

/-- C9.  The rotating variant exits with code 1 — never reaching the
`running` outcome from which a detector is created or an external process
launched — whenever the minutes argument does not pass `isdigit` (e.g.
`"abc"`), or parses to a non-positive value (e.g. `"0"`), or the initial
theme is not a member of the configured theme set. -/
theorem main_validation_rejects (prog name mins : String)
    (themes : List String)
    (h : pyIsDigit mins = false ∨ pyInt mins ≤ 0 ∨ name ∉ themes) :
    main [prog, name, mins] themes = MainOutcome.exit 1 := by
  rcases h with h | h | h
  · simp [main, h]
  · by_cases hd : pyIsDigit mins = false
    · simp [main, hd]
    · simp [main, hd, h]
  · by_cases hd : pyIsDigit mins = false
    · simp [main, hd]
    · by_cases hp : pyInt mins ≤ 0
      · simp [main, hd, hp]
      · simp [main, hd, hp, h]

/-- Witness for C9: the concrete rejected invocations of scenario C
(`minutes = "abc"`, `minutes = "0"`) and a theme outside the configured set
all exit with code 1. -/
theorem main_validation_rejects_witness :
    (pyIsDigit "abc" = false ∧
        main ["scarerandom.py", "Male", "abc"] ["Male", "Female", "Child"] =
          MainOutcome.exit 1) ∧
      (pyInt "0" ≤ 0 ∧
        main ["scarerandom.py", "Male", "0"] ["Male", "Female", "Child"] =
          MainOutcome.exit 1) ∧
      ("Ghost" ∉ (["Male", "Female", "Child"] : List String) ∧
        main ["scarerandom.py", "Ghost", "10"] ["Male", "Female", "Child"] =
          MainOutcome.exit 1) :=
  ⟨⟨by decide,
      main_validation_rejects "scarerandom.py" "Male" "abc"
        ["Male", "Female", "Child"] (Or.inl (by decide))⟩,
    ⟨by decide,
      main_validation_rejects "scarerandom.py" "Male" "0"
        ["Male", "Female", "Child"] (Or.inr (Or.inl (by decide)))⟩,
    ⟨by decide,
      main_validation_rejects "scarerandom.py" "Ghost" "10"
        ["Male", "Female", "Child"] (Or.inr (Or.inr (by decide)))⟩⟩

end ScareRandom

